import Mathlib

/-!
Verification of the iTunes search backend.

The development shallowly embeds the backend's core:
* `normalizeItem`, `searchAndSave` — the catalog fetch-and-upsert service
  (`src/backend/src/services/searchResultService.ts`);
* `upsert`, `toStored` — the record store adapter: the spec's insert-or-replace
  contract (§4.1) keyed by `id`, with the schema default `image := ""` from
  `src/backend/src/models/searchResult.ts`;
* `handler` — the HTTP endpoint `GET /search/:searchWord`
  (`src/backend/src/index.ts`).

JavaScript `a || b` fallbacks are embedded with explicit truthiness: `0`,
the empty string and `undefined` (here `Option.none`) are falsy.  The
outbound HTTP call is abstracted into an environment `Env` carrying the
catalog response for each term, the current timestamp, and an oracle saying
which per-item store writes throw.
-/

namespace ITunesSearch

/-- One item of the parsed catalog response body (`data.results[i]`).
Optional JSON fields are `Option`; `kind` and `artistName` are copied through
without fallback in the source, so they are kept as plain strings. -/
structure CatalogItem where
  trackId : Option Int
  collectionId : Option Int
  kind : String
  artistName : String
  collectionName : Option String
  trackName : Option String
  collectionViewUrl : Option String
  trackViewUrl : Option String
  artworkUrl600 : Option String
  artworkUrl100 : Option String
  deriving Repr, DecidableEq

/-- JavaScript `a || d` for a numeric field `a` that may be absent:
`undefined` and `0` are falsy, so they fall through to `d`. -/
def jsOrNum : Option Int → Int → Int
  | some n, d => if n = 0 then d else n
  | none, d => d

/-- JavaScript `a || d` for a string field `a` that may be absent:
`undefined` and `""` are falsy, so they fall through to `d`. -/
def jsOrStr : Option String → String → String
  | some s, d => if s = "" then d else s
  | none, d => d

/-- JavaScript `a || b` where both operands may be absent and no final
default is supplied (the `image` line of the source has no trailing
fallback to a literal). -/
def jsOrOpt : Option String → Option String → Option String
  | some s, b => if s = "" then b else some s
  | none, b => b

/-- The normalized record built inside the loop of `searchAndSave`
(the `searchResult` object literal).  `image` stays optional because the
source line `item.artworkUrl600 || item.artworkUrl100` has no final
empty-string fallback; the store's schema default fills it in. -/
structure SearchRecord where
  id : Int
  kind : String
  artistName : String
  collectionName : String
  collectionViewUrl : String
  image : Option String
  searchDate : Nat
  deriving Repr, DecidableEq

/-- Normalization of one catalog item, line by line from the source:
`id: item.trackId || item.collectionId || Date.now()`,
`collectionName: item.collectionName || item.trackName || ''`,
`collectionViewUrl: item.collectionViewUrl || item.trackViewUrl || ''`,
`image: item.artworkUrl600 || item.artworkUrl100`,
`searchDate: new Date()`.  `now` stands for the current timestamp. -/
def normalizeItem (item : CatalogItem) (now : Nat) : SearchRecord :=
  { id := jsOrNum item.trackId (jsOrNum item.collectionId (Int.ofNat now))
    kind := item.kind
    artistName := item.artistName
    collectionName := jsOrStr item.collectionName (jsOrStr item.trackName "")
    collectionViewUrl := jsOrStr item.collectionViewUrl (jsOrStr item.trackViewUrl "")
    image := jsOrOpt item.artworkUrl600 item.artworkUrl100
    searchDate := now }

/-- A record as held by the store.  All fields of `SearchRecord`, with the
schema default `image: \x7b required: false, default: "" \x7d` from
`searchResult.ts` applied. -/
structure StoredRecord where
  id : Int
  kind : String
  artistName : String
  collectionName : String
  collectionViewUrl : String
  image : String
  searchDate : Nat
  deriving Repr, DecidableEq

/-- Store representation of a normalized record: the schema default turns an
absent `image` into `""`. -/
def toStored (r : SearchRecord) : StoredRecord :=
  { id := r.id
    kind := r.kind
    artistName := r.artistName
    collectionName := r.collectionName
    collectionViewUrl := r.collectionViewUrl
    image := r.image.getD ""
    searchDate := r.searchDate }

/-- The store, as the spec's §4.1 external collaborator: a list of records,
intended to hold at most one record per `id`. -/
def upsert : List StoredRecord → StoredRecord → List StoredRecord
  | [], r => [r]
  | s :: rest, r => if s.id = r.id then r :: rest else s :: upsert rest r

/-- `id` is unique across the store (the schema's `unique: true` index). -/
def distinctIds (store : List StoredRecord) : Prop :=
  store.Pairwise (fun a b => a.id ≠ b.id)

/-- Whether some record in the store carries the id `k`. -/
def hasId (store : List StoredRecord) (k : Int) : Bool :=
  store.any (fun s => s.id == k)

/-- The parsed outcome of the outbound catalog HTTP call: its status code,
and `some items` when the body has a well-formed `results` sequence
(`none` models an absent or non-iterable `results` field, which makes the
`for ... of data.results` loop throw). -/
structure CatalogResponse where
  status : Nat
  results : Option (List CatalogItem)

/-- `response.ok` of the Fetch API: status in the range 200–299. -/
def responseOk (status : Nat) : Bool :=
  200 ≤ status && status < 300

/-- Environment of one `searchAndSave` call: the catalog response each term
elicits, the timestamp `Date.now()` reads, and which per-item store writes
throw (indexed by position in the batch). -/
structure Env where
  fetch : String → CatalogResponse
  now : Nat
  upsertFails : Nat → Bool

/-- The per-item loop of `searchAndSave`: normalize, upsert, and collect the
saved record; an item whose write throws is logged and skipped (inner
`try/catch`), leaving the store untouched for that item.  Returns the final
store and `savedResults` in order. -/
def processItems (fails : Nat → Bool) (now : Nat) :
    Nat → List StoredRecord → List CatalogItem →
    List StoredRecord × List StoredRecord
  | _, store, [] => (store, [])
  | i, store, item :: rest =>
    if fails i then processItems fails now (i + 1) store rest
    else
      let r := toStored (normalizeItem item now)
      let out := processItems fails now (i + 1) (upsert store r) rest
      (out.1, r :: out.2)

/-- `searchAndSave(searchWord)` from the service source.  A non-success
status throws (`iTunes API request failed`), and a missing `results`
sequence throws in the loop header; both are caught by the outer
`try/catch`, which returns `[]`.  Otherwise each item is processed in
order.  Returns the final store paired with the returned list. -/
def searchAndSave (searchWord : String) (env : Env)
    (store : List StoredRecord) : List StoredRecord × List StoredRecord :=
  let response := env.fetch searchWord
  if responseOk response.status then
    match response.results with
    | some items => processItems env.upsertFails env.now 0 store items
    | none => (store, [])
  else (store, [])

/-- A sequence of `searchAndSave` calls threaded through the store. -/
def runCalls : List (String × Env) → List StoredRecord → List StoredRecord
  | [], store => store
  | (w, env) :: rest, store => runCalls rest (searchAndSave w env store).1

/-- Minimal JSON values, for the endpoint's response bodies. -/
inductive Json where
  | str : String → Json
  | num : Int → Json
  | bool : Bool → Json
  | arr : List Json → Json
  | obj : List (String × Json) → Json

/-- Serialization of a stored record, field by field. -/
def storedToJson (r : StoredRecord) : Json :=
  .obj [("id", .num r.id), ("kind", .str r.kind),
        ("artistName", .str r.artistName),
        ("collectionName", .str r.collectionName),
        ("collectionViewUrl", .str r.collectionViewUrl),
        ("image", .str r.image),
        ("searchDate", .num (Int.ofNat r.searchDate))]

/-- An HTTP response: status code and JSON body. -/
structure HttpResponse where
  status : Nat
  body : Json

/-- What the awaited service call did: produced a list, or threw an
unexpected exception (reaching the endpoint's catch-all). -/
inductive ServiceOutcome where
  | ok : List StoredRecord → ServiceOutcome
  | threw : ServiceOutcome

/-- The express route `GET /search/:searchWord` from `index.ts`: an empty
(falsy) `searchWord` yields 400 with a structured error; otherwise the
service result is serialized with status 200, and an exception escaping the
service reaches the catch-all, yielding 500. -/
def handler (searchWord : String) (outcome : ServiceOutcome) : HttpResponse :=
  if searchWord = "" then
    { status := 400
      body := .obj [("success", .bool false),
                    ("error", .str "searchWord parameter is required")] }
  else
    match outcome with
    | .ok records => { status := 200, body := .arr (records.map storedToJson) }
    | .threw =>
      { status := 500
        body := .obj [("success", .bool false),
                      ("error", .str "Internal server error")] }

/-- Index the elements of a list starting at `k` (the loop counter of the
per-item batch). -/
def idxFrom (k : Nat) : List α → List (Nat × α)
  | [] => []
  | a :: as => (k, a) :: idxFrom (k + 1) as

/-- JavaScript truthiness of an optional numeric field: `undefined` and `0`
are falsy. -/
def truthyNum : Option Int → Bool
  | some n => n != 0
  | none => false

/-- The item carries a usable natural identifier: a truthy `trackId` or a
truthy `collectionId`, so the timestamp fallback is never consulted. -/
def naturalId (it : CatalogItem) : Bool :=
  truthyNum it.trackId || truthyNum it.collectionId

/-! ### Concrete test data -/

/-- A catalog item with every optional field absent. -/
def baseItem : CatalogItem :=
  { trackId := none, collectionId := none, kind := "song", artistName := "A",
    collectionName := none, trackName := none, collectionViewUrl := none,
    trackViewUrl := none, artworkUrl600 := none, artworkUrl100 := none }

/-- An environment whose catalog call answers 503 for every term. -/
def envFail : Env :=
  { fetch := fun _ => { status := 503, results := some [] }, now := 0,
    upsertFails := fun _ => false }

/-- Item whose `trackId` is the number 0 and whose `collectionId` is 7. -/
def itemZeroIds : CatalogItem :=
  { baseItem with
    trackId := some 0
    collectionId := some 7 }

/-- Item whose `trackId` and `collectionId` are both the number 0. -/
def itemBothZero : CatalogItem :=
  { baseItem with
    trackId := some 0
    collectionId := some 0 }

/-- Item whose `trackId` is 0 but whose `collectionId` is the nonzero 7. -/
def itemTrackZero : CatalogItem :=
  { baseItem with
    trackId := some 0
    collectionId := some 7 }

/-- Item with a nonzero `trackId`. -/
def itemIdA : CatalogItem := { baseItem with trackId := some 11 }

/-- Item with no `trackId` and a nonzero `collectionId`. -/
def itemIdB : CatalogItem := { baseItem with collectionId := some 7 }

/-- Item with neither external id. -/
def itemIdC : CatalogItem := baseItem

/-- Item whose `collectionName` and `collectionViewUrl` are present but
empty, with non-empty track fallbacks. -/
def itemEmptyNames : CatalogItem :=
  { baseItem with
    trackId := some 1
    collectionName := some ""
    trackName := some "Track T"
    collectionViewUrl := some ""
    trackViewUrl := some "http://t" }

/-- Item with a non-empty `collectionName` and `collectionViewUrl`. -/
def itemName1 : CatalogItem :=
  { baseItem with
    collectionName := some "Col"
    collectionViewUrl := some "http://c" }

/-- Item with only the track-side name and URL. -/
def itemName2 : CatalogItem :=
  { baseItem with
    trackName := some "Trk"
    trackViewUrl := some "http://t" }

/-- Item with no name or URL field at all. -/
def itemName3 : CatalogItem := baseItem

/-- Item whose high-resolution artwork URL is present but empty. -/
def itemEmptyArt : CatalogItem :=
  { baseItem with
    artworkUrl600 := some ""
    artworkUrl100 := some "http://img100" }

/-- Item with a non-empty high-resolution artwork URL. -/
def itemArt1 : CatalogItem := { baseItem with artworkUrl600 := some "http://img600" }

/-- Item with only the low-resolution artwork URL. -/
def itemArt2 : CatalogItem := { baseItem with artworkUrl100 := some "http://img100" }

/-- Item with no artwork URL. -/
def itemArt3 : CatalogItem := baseItem

/-- Item lacking both natural ids, forcing the timestamp fallback. -/
def itemNoIds : CatalogItem :=
  { baseItem with
    kind := "podcast"
    collectionName := some "C"
    collectionViewUrl := some "http://c" }

/-- A catalog that always answers 200 with the single id-less item. -/
def fetchNoIds : String → CatalogResponse :=
  fun _ => { status := 200, results := some [itemNoIds] }

/-- First call against `fetchNoIds`, at time 100. -/
def envFirst : Env :=
  { fetch := fetchNoIds, now := 100, upsertFails := fun _ => false }

/-- Second call against `fetchNoIds`, at time 200. -/
def envSecond : Env :=
  { fetch := fetchNoIds, now := 200, upsertFails := fun _ => false }

/-- Item with the natural id 11. -/
def itemNat : CatalogItem :=
  { baseItem with
    trackId := some 11
    collectionName := some "C" }

/-- A catalog that always answers 200 with the single naturally-keyed item. -/
def fetchNat : String → CatalogResponse :=
  fun _ => { status := 200, results := some [itemNat] }

/-- First call against `fetchNat`, at time 100. -/
def envNat1 : Env :=
  { fetch := fetchNat, now := 100, upsertFails := fun _ => false }

/-- Second call against `fetchNat`, at time 200. -/
def envNat2 : Env :=
  { fetch := fetchNat, now := 200, upsertFails := fun _ => false }

/-- Item with id 5 and artist name A. -/
def itemArtistA : CatalogItem :=
  { baseItem with
    trackId := some 5
    artistName := "ArtistA" }

/-- The same catalog entity, now reported with artist name B. -/
def itemArtistB : CatalogItem :=
  { baseItem with
    trackId := some 5
    artistName := "ArtistB" }

/-- A call whose catalog reports artist name A for id 5, at time 100. -/
def envArtistA : Env :=
  { fetch := fun _ => { status := 200, results := some [itemArtistA] },
    now := 100, upsertFails := fun _ => false }

/-- A call returning two items whose store write throws exactly at the
first position. -/
def envOneFail : Env :=
  { fetch := fun _ => { status := 200, results := some [itemNat, itemName1] }
    now := 100
    upsertFails := fun j => j == 0 }

/-- A call whose catalog reports artist name B for id 5, at time 200. -/
def envArtistB : Env :=
  { fetch := fun _ => { status := 200, results := some [itemArtistB] },
    now := 200, upsertFails := fun _ => false }

end ITunesSearch

namespace ITunesSearch

/-! ### Helper lemmas -/

lemma idxFrom_map_snd (g : α → β) (l : List α) :
    ∀ k, (idxFrom k l).map (fun p => g p.2) = l.map g := by
  induction l with
  | nil => intro k; rfl
  | cons a t ih => intro k; simp [idxFrom, ih]

lemma length_idxFrom (l : List α) : ∀ k, (idxFrom k l).length = l.length := by
  induction l with
  | nil => intro k; rfl
  | cons a t ih => intro k; simp [idxFrom, ih]

lemma filter_not_length (p : α → Bool) (l : List α) :
    (l.filter (fun a => !(p a))).length + (l.filter p).length = l.length := by
  induction l with
  | nil => rfl
  | cons a t ih => by_cases h : p a <;> simp [List.filter_cons, h] <;> omega

lemma idxFrom_filter_idx_nil (l : List α) :
    ∀ k j, j < k → (idxFrom k l).filter (fun p => p.1 == j) = [] := by
  induction l with
  | nil => intro k j _; rfl
  | cons a t ih =>
    intro k j h
    have hk : (k == j) = false := by simp; omega
    simp [idxFrom, List.filter_cons, hk, ih (k + 1) j (Nat.lt_succ_of_lt h)]

lemma idxFrom_filter_idx_one (l : List α) :
    ∀ k j, k ≤ j → j < k + l.length →
      ((idxFrom k l).filter (fun p => p.1 == j)).length = 1 := by
  induction l with
  | nil => intro k j h1 h2; simp at h2; omega
  | cons a t ih =>
    intro k j h1 h2
    by_cases h : k = j
    · subst h
      simp [idxFrom, List.filter_cons,
        idxFrom_filter_idx_nil t (k + 1) k (Nat.lt_succ_self k)]
    · have hk : (k == j) = false := by simp [h]
      simp only [idxFrom, List.filter_cons, hk, Bool.false_eq_true, if_false]
      exact ih (k + 1) j (by omega) (by simp at h2 ⊢; omega)

lemma processItems_snd (fails : Nat → Bool) (now : Nat) :
    ∀ (items : List CatalogItem) (i : Nat) (store : List StoredRecord),
      (processItems fails now i store items).2 =
        ((idxFrom i items).filter (fun p => !(fails p.1))).map
          (fun p => toStored (normalizeItem p.2 now)) := by
  intro items
  induction items with
  | nil => intro i store; rfl
  | cons item rest ih =>
    intro i store
    by_cases h : fails i
    · simp [processItems, h, idxFrom, List.filter_cons, ih]
    · simp [processItems, h, idxFrom, List.filter_cons, ih]

lemma hasId_cons (s : StoredRecord) (rest : List StoredRecord) (k : Int) :
    hasId (s :: rest) k = (s.id == k || hasId rest k) := rfl

lemma mem_upsert {store : List StoredRecord} {r b : StoredRecord}
    (h : b ∈ upsert store r) : b ∈ store ∨ b = r := by
  induction store with
  | nil => simpa [upsert] using h
  | cons s rest ih =>
    by_cases hs : s.id = r.id
    · simp [upsert, hs] at h
      rcases h with h | h
      · right; exact h
      · left; exact List.mem_cons_of_mem _ h
    · simp [upsert, hs] at h
      rcases h with h | h
      · left; simp [h]
      · rcases ih h with h1 | h1
        · left; exact List.mem_cons_of_mem _ h1
        · right; exact h1

lemma distinctIds_upsert {store : List StoredRecord} (r : StoredRecord)
    (h : distinctIds store) : distinctIds (upsert store r) := by
  induction store with
  | nil => simp [upsert, distinctIds]
  | cons s rest ih =>
    rw [distinctIds, List.pairwise_cons] at h
    obtain ⟨hs, hrest⟩ := h
    by_cases hid : s.id = r.id
    · simp only [upsert, hid, if_true]
      rw [distinctIds, List.pairwise_cons]
      exact ⟨fun b hb => hid ▸ hs b hb, hrest⟩
    · simp only [upsert, hid, if_false]
      rw [distinctIds, List.pairwise_cons]
      refine ⟨fun b hb => ?_, ih hrest⟩
      rcases mem_upsert hb with h1 | h1
      · exact hs b h1
      · rw [h1]; exact hid

lemma hasId_upsert_self (store : List StoredRecord) (r : StoredRecord) :
    hasId (upsert store r) r.id = true := by
  induction store with
  | nil => simp [upsert, hasId]
  | cons s rest ih =>
    by_cases hs : s.id = r.id
    · simp [upsert, hs, hasId]
    · simp only [upsert, hs, if_false, hasId_cons]
      simp [ih]

lemma hasId_upsert_mono {store : List StoredRecord} {k : Int} (r : StoredRecord)
    (h : hasId store k = true) : hasId (upsert store r) k = true := by
  induction store with
  | nil => simp [hasId] at h
  | cons s rest ih =>
    rw [hasId_cons, Bool.or_eq_true] at h
    by_cases hs : s.id = r.id
    · simp only [upsert, hs, if_true, hasId_cons, Bool.or_eq_true]
      rcases h with h | h
      · left; rw [beq_iff_eq] at h ⊢; rw [← hs]; exact h
      · right; exact h
    · simp only [upsert, hs, if_false, hasId_cons, Bool.or_eq_true]
      rcases h with h | h
      · left; exact h
      · right; exact ih h

lemma upsert_length_of_hasId {store : List StoredRecord} {r : StoredRecord}
    (h : hasId store r.id = true) : (upsert store r).length = store.length := by
  induction store with
  | nil => simp [hasId] at h
  | cons s rest ih =>
    by_cases hs : s.id = r.id
    · simp [upsert, hs]
    · rw [hasId_cons, Bool.or_eq_true] at h
      rcases h with h | h
      · rw [beq_iff_eq] at h; exact absurd h hs
      · simp only [upsert, hs, if_false, List.length_cons, ih h]

lemma filter_id_eq_nil {rest : List StoredRecord} {k : Int}
    (h : ∀ b ∈ rest, b.id ≠ k) : rest.filter (fun s => s.id == k) = [] := by
  rw [List.filter_eq_nil_iff]
  intro a ha
  simpa using h a ha

lemma upsert_filter_eq {store : List StoredRecord} (r : StoredRecord)
    (h : distinctIds store) :
    (upsert store r).filter (fun s => s.id == r.id) = [r] := by
  induction store with
  | nil => simp [upsert]
  | cons s rest ih =>
    rw [distinctIds, List.pairwise_cons] at h
    obtain ⟨hs, hrest⟩ := h
    by_cases hid : s.id = r.id
    · simp only [upsert, hid, if_true, List.filter_cons, beq_self_eq_true, if_true]
      rw [filter_id_eq_nil (fun b hb => fun he => hs b hb (hid.trans he.symm))]
    · have hk : (s.id == r.id) = false := by simp [hid]
      simp only [upsert, hid, if_false, List.filter_cons, hk]
      exact ih hrest

lemma processItems_fst_hasId_mono (fails : Nat → Bool) (now : Nat) :
    ∀ (items : List CatalogItem) (i : Nat) (store : List StoredRecord) (k : Int),
      hasId store k = true →
      hasId (processItems fails now i store items).1 k = true := by
  intro items
  induction items with
  | nil => intro i store k h; exact h
  | cons item rest ih =>
    intro i store k h
    by_cases hf : fails i
    · simpa [processItems, hf] using ih (i + 1) store k h
    · simpa [processItems, hf] using ih (i + 1) _ k (hasId_upsert_mono _ h)

lemma processItems_fst_hasId_of_mem (fails : Nat → Bool) (now : Nat)
    (hnofail : ∀ j, fails j = false) :
    ∀ (items : List CatalogItem) (i : Nat) (store : List StoredRecord)
      (item : CatalogItem), item ∈ items →
      hasId (processItems fails now i store items).1
        (normalizeItem item now).id = true := by
  intro items
  induction items with
  | nil => intro i store item h; cases h
  | cons a rest ih =>
    intro i store item h
    have hf := hnofail i
    rw [List.mem_cons] at h
    rcases h with h | h
    · subst h
      simp only [processItems, hf, Bool.false_eq_true, if_false]
      exact processItems_fst_hasId_mono fails now rest (i + 1) _ _
        (hasId_upsert_self store (toStored (normalizeItem item now)))
    · simp only [processItems, hf, Bool.false_eq_true, if_false]
      exact ih (i + 1) _ item h

lemma processItems_fst_length (fails : Nat → Bool) (now : Nat)
    (hnofail : ∀ j, fails j = false) :
    ∀ (items : List CatalogItem) (i : Nat) (store : List StoredRecord),
      (∀ item ∈ items, hasId store (normalizeItem item now).id = true) →
      (processItems fails now i store items).1.length = store.length := by
  intro items
  induction items with
  | nil => intro i store _; rfl
  | cons a rest ih =>
    intro i store h
    have hf := hnofail i
    simp only [processItems, hf, Bool.false_eq_true, if_false]
    rw [ih (i + 1) _
      (fun item hm => hasId_upsert_mono _ (h item (List.mem_cons_of_mem _ hm)))]
    exact upsert_length_of_hasId (h a (List.mem_cons_self _ _))

lemma distinctIds_processItems (fails : Nat → Bool) (now : Nat) :
    ∀ (items : List CatalogItem) (i : Nat) (store : List StoredRecord),
      distinctIds store → distinctIds (processItems fails now i store items).1 := by
  intro items
  induction items with
  | nil => intro i store h; exact h
  | cons a rest ih =>
    intro i store h
    by_cases hf : fails i
    · simpa [processItems, hf] using ih (i + 1) store h
    · simpa [processItems, hf] using ih (i + 1) _ (distinctIds_upsert _ h)

lemma distinctIds_searchAndSave (w : String) (env : Env)
    (store : List StoredRecord) (h : distinctIds store) :
    distinctIds (searchAndSave w env store).1 := by
  rw [searchAndSave]
  by_cases hok : responseOk (env.fetch w).status
  · cases hres : (env.fetch w).results with
    | some items =>
      simpa [hok, hres] using
        distinctIds_processItems env.upsertFails env.now items 0 store h
    | none => simpa [hok, hres] using h
  · simpa [hok] using h

lemma normalizeItem_id_natural (it : CatalogItem) (h : naturalId it = true)
    (n m : Nat) : (normalizeItem it n).id = (normalizeItem it m).id := by
  cases htr : it.trackId with
  | some t =>
    by_cases ht : t = 0
    · subst ht
      have hc : truthyNum it.collectionId = true := by
        simpa [naturalId, truthyNum, htr] using h
      cases hco : it.collectionId with
      | some c =>
        have hcz : ¬ c = 0 := by simpa [truthyNum, hco] using hc
        simp [normalizeItem, jsOrNum, htr, hco, hcz]
      | none => simp [truthyNum, hco] at hc
    · simp [normalizeItem, jsOrNum, htr, ht]
  | none =>
    have hc : truthyNum it.collectionId = true := by
      simpa [naturalId, truthyNum, htr] using h
    cases hco : it.collectionId with
    | some c =>
      have hcz : ¬ c = 0 := by simpa [truthyNum, hco] using hc
      simp [normalizeItem, jsOrNum, htr, hco, hcz]
    | none => simp [truthyNum, hco] at hc

lemma searchAndSave_snd_nofail (w : String) (env : Env)
    (store : List StoredRecord) (items : List CatalogItem)
    (hok : responseOk (env.fetch w).status = true)
    (hres : (env.fetch w).results = some items)
    (hf : env.upsertFails = fun _ => false) :
    (searchAndSave w env store).2 =
      items.map (fun it => toStored (normalizeItem it env.now)) := by
  rw [searchAndSave]
  simp only [hok, hres, if_true]
  rw [processItems_snd, hf]
  simp only [Bool.not_false, List.filter_true]
  exact idxFrom_map_snd (fun it => toStored (normalizeItem it env.now)) items 0

/-! ### Claim theorems -/

/-- Claim C1: for every search term, if the outbound catalog HTTP response
has a non-success status, or the parsed response body lacks a well-formed
`results` sequence, then `searchAndSave` returns the empty list and no
exception escapes the function (the failure is absorbed by the top-level
handler; as embedded, the call is a total function that also leaves the
store untouched). -/
theorem searchAndSave_failure_empty (w : String) (env : Env)
    (store : List StoredRecord)
    (h : responseOk (env.fetch w).status = false ∨
      (env.fetch w).results = none) :
    (searchAndSave w env store).2 = [] ∧
    (searchAndSave w env store).1 = store := by
  rcases h with h | h
  · unfold searchAndSave
    simp [h]
  · unfold searchAndSave
    by_cases hok : responseOk (env.fetch w).status <;> simp [h, hok]

/-- Witness for C1: a concrete 503 response yields the empty list. -/
theorem searchAndSave_failure_empty_witness :
    (searchAndSave "beatles" envFail []).2 = [] ∧
    (searchAndSave "beatles" envFail []).1 = [] :=
  searchAndSave_failure_empty "beatles" envFail [] (Or.inl (by decide))

/-- Claim C3: for every valid non-empty search term with a successful
catalog response, `searchAndSave` returns the successfully upserted records
in the order the catalog API returned the items (no re-sorting, no
ranking), and the returned list's length equals the number of catalog items
minus those whose upsert failed. -/
theorem searchAndSave_success_shape (w : String) (env : Env)
    (store : List StoredRecord) (items : List CatalogItem)
    (_hw : w ≠ "")
    (hok : responseOk (env.fetch w).status = true)
    (hres : (env.fetch w).results = some items) :
    (searchAndSave w env store).2 =
      ((idxFrom 0 items).filter (fun p => !(env.upsertFails p.1))).map
        (fun p => toStored (normalizeItem p.2 env.now)) ∧
    (searchAndSave w env store).2.length =
      items.length -
        ((idxFrom 0 items).filter (fun p => env.upsertFails p.1)).length := by
  have h1 : (searchAndSave w env store).2 =
      ((idxFrom 0 items).filter (fun p => !(env.upsertFails p.1))).map
        (fun p => toStored (normalizeItem p.2 env.now)) := by
    rw [searchAndSave]
    simp only [hok, hres, if_true]
    exact processItems_snd env.upsertFails env.now items 0 store
  refine ⟨h1, ?_⟩
  rw [h1, List.length_map]
  have h2 := filter_not_length (fun p : Nat × CatalogItem => env.upsertFails p.1)
    (idxFrom 0 items)
  have h3 := length_idxFrom items 0
  omega

/-- Witness for C3: a concrete 200 response with one item and no store
failures returns that one normalized record. -/
theorem searchAndSave_success_shape_witness :
    (searchAndSave "q" envNat1 []).2 =
      ((idxFrom 0 [itemNat]).filter (fun p => !(envNat1.upsertFails p.1))).map
        (fun p => toStored (normalizeItem p.2 envNat1.now)) ∧
    (searchAndSave "q" envNat1 []).2.length =
      [itemNat].length -
        ((idxFrom 0 [itemNat]).filter
          (fun p => envNat1.upsertFails p.1)).length :=
  searchAndSave_success_shape "q" envNat1 [] [itemNat] (by decide) (by decide) rfl

/-- Claim C2: for a catalog response with `N` items where the store upsert
fails for exactly one item (the one at position `i`), `searchAndSave` still
processes all remaining items — the returned list is exactly the normalized
records of the other items in order — has length `N - 1`, and does not
raise (the embedding is total). -/
theorem searchAndSave_partial_failure (w : String) (env : Env)
    (store : List StoredRecord) (items : List CatalogItem) (i : Nat)
    (hok : responseOk (env.fetch w).status = true)
    (hres : (env.fetch w).results = some items)
    (hi : i < items.length)
    (hfail : env.upsertFails = fun j => j == i) :
    (searchAndSave w env store).2 =
      ((idxFrom 0 items).filter (fun p => !(p.1 == i))).map
        (fun p => toStored (normalizeItem p.2 env.now)) ∧
    (searchAndSave w env store).2.length = items.length - 1 := by
  have h1 : (searchAndSave w env store).2 =
      ((idxFrom 0 items).filter (fun p => !(env.upsertFails p.1))).map
        (fun p => toStored (normalizeItem p.2 env.now)) := by
    rw [searchAndSave]
    simp only [hok, hres, if_true]
    exact processItems_snd env.upsertFails env.now items 0 store
  simp only [hfail] at h1
  refine ⟨h1, ?_⟩
  rw [h1, List.length_map]
  have hone := idxFrom_filter_idx_one items 0 i (Nat.zero_le i) (by simpa using hi)
  have hsplit := filter_not_length (fun p : Nat × CatalogItem => p.1 == i)
    (idxFrom 0 items)
  have hlen := length_idxFrom items 0
  omega

/-- Witness for C2: with two items and the upsert failing exactly at
position 0, the call returns just the second item's record. -/
theorem searchAndSave_partial_failure_witness :
    (searchAndSave "q" envOneFail []).2 =
      ((idxFrom 0 [itemNat, itemName1]).filter (fun p => !(p.1 == 0))).map
        (fun p => toStored (normalizeItem p.2 envOneFail.now)) ∧
    (searchAndSave "q" envOneFail []).2.length = [itemNat, itemName1].length - 1 :=
  searchAndSave_partial_failure "q" envOneFail [] [itemNat, itemName1] 0
    (by decide) rfl (by decide) rfl

/-- Claim C4: the endpoint `GET /search/:searchWord` answers 400 with
`success:false, error:"searchWord parameter is required"` when the path
parameter is empty; 200 with the service's result list serialized as a JSON
array on success — including `[]` when an upstream failure was swallowed by
the service; and 500 with `success:false, error:"Internal server error"`
when an unexpected exception escapes the service. -/
theorem endpoint_contract (w : String) (env : Env) (store : List StoredRecord)
    (hw : w ≠ "") :
    (∀ outcome, handler "" outcome =
      { status := 400
        body := .obj [("success", .bool false),
                      ("error", .str "searchWord parameter is required")] }) ∧
    (∀ records : List StoredRecord, handler w (.ok records) =
      { status := 200, body := .arr (records.map storedToJson) }) ∧
    (handler w .threw =
      { status := 500
        body := .obj [("success", .bool false),
                      ("error", .str "Internal server error")] }) ∧
    (responseOk (env.fetch w).status = false →
      handler w (.ok (searchAndSave w env store).2) =
        { status := 200, body := .arr [] }) := by
  refine ⟨fun outcome => rfl, fun records => by simp [handler, hw],
    by simp [handler, hw], fun hfail => ?_⟩
  have h2 : (searchAndSave w env store).2 = [] := by
    unfold searchAndSave
    simp [hfail]
  rw [h2]
  simp [handler, hw]

/-- Witness for C4: the three response shapes at concrete requests,
including the swallowed 503 upstream failure. -/
theorem endpoint_contract_witness :
    handler "" (.ok []) =
      { status := 400
        body := .obj [("success", .bool false),
                      ("error", .str "searchWord parameter is required")] } ∧
    handler "test" (.ok []) = { status := 200, body := .arr [] } ∧
    handler "test" .threw =
      { status := 500
        body := .obj [("success", .bool false),
                      ("error", .str "Internal server error")] } ∧
    handler "test" (.ok (searchAndSave "test" envFail []).2) =
      { status := 200, body := .arr [] } := by
  obtain ⟨h1, h2, h3, h4⟩ := endpoint_contract "test" envFail [] (by decide)
  exact ⟨h1 (.ok []), by simpa using h2 [], h3, h4 (by decide)⟩

/-- Claim C10: the id fallback is truthiness-based, so a `trackId` equal to
the number 0 is treated as absent and the normalized id is taken from the
next fallback (`collectionId`, or the timestamp when `collectionId` is also
absent or 0); likewise a `collectionId` of 0 falls through to the
timestamp. -/
theorem id_truthiness_zero (it : CatalogItem) (now : Nat) :
    (it.trackId = some 0 →
      (∀ m : Int, it.collectionId = some m → m ≠ 0 →
        (normalizeItem it now).id = m) ∧
      ((it.collectionId = none ∨ it.collectionId = some 0) →
        (normalizeItem it now).id = Int.ofNat now)) ∧
    (it.collectionId = some 0 → (it.trackId = none ∨ it.trackId = some 0) →
      (normalizeItem it now).id = Int.ofNat now) := by
  constructor
  · intro h0
    constructor
    · intro m hm hmne
      simp [normalizeItem, jsOrNum, h0, hm, hmne]
    · intro hc
      rcases hc with hc | hc <;> simp [normalizeItem, jsOrNum, h0, hc]
  · intro hc htr
    rcases htr with htr | htr <;> simp [normalizeItem, jsOrNum, htr, hc]

/-- Witness for C10: with `trackId = 0` and `collectionId = 7` the id is 7;
with both ids 0 the id is the timestamp 99. -/
theorem id_truthiness_zero_witness :
    (normalizeItem itemZeroIds 99).id = 7 ∧
    (normalizeItem itemBothZero 99).id = Int.ofNat 99 :=
  ⟨((id_truthiness_zero itemZeroIds 99).1 rfl).1 7 rfl (by decide),
   ((id_truthiness_zero itemBothZero 99).1 rfl).2 (Or.inr rfl)⟩

/-- Counterexample to Claim C7 as stated: `itemTrackZero` has
`trackId = some 0` — the first external id field is present — yet the
normalized id is 7, taken from `collectionId`, not the present `trackId`. -/
theorem id_present_cex :
    itemTrackZero.trackId = some 0 ∧
    (normalizeItem itemTrackZero 99).id = 7 := by
  exact ⟨rfl, by decide⟩

/-- Claim C7 as amended: the normalized id equals `trackId` when present
and nonzero, else `collectionId` when present and nonzero, else the
timestamp-derived synthetic id. -/
theorem id_fallback (it : CatalogItem) (now : Nat) :
    (∀ n : Int, it.trackId = some n → n ≠ 0 →
      (normalizeItem it now).id = n) ∧
    ((it.trackId = none ∨ it.trackId = some 0) →
      ∀ m : Int, it.collectionId = some m → m ≠ 0 →
        (normalizeItem it now).id = m) ∧
    ((it.trackId = none ∨ it.trackId = some 0) →
      (it.collectionId = none ∨ it.collectionId = some 0) →
      (normalizeItem it now).id = Int.ofNat now) := by
  refine ⟨fun n hn hnz => ?_, fun htr m hm hmz => ?_, fun htr hco => ?_⟩
  · simp [normalizeItem, jsOrNum, hn, hnz]
  · rcases htr with htr | htr <;> simp [normalizeItem, jsOrNum, htr, hm, hmz]
  · rcases htr with htr | htr <;> rcases hco with hco | hco <;>
      simp [normalizeItem, jsOrNum, htr, hco]

/-- Witness for the amended C7: id 11 from `trackId`, id 7 from
`collectionId`, and the timestamp 99 when both are absent. -/
theorem id_fallback_witness :
    (normalizeItem itemIdA 99).id = 11 ∧
    (normalizeItem itemIdB 99).id = 7 ∧
    (normalizeItem itemIdC 99).id = Int.ofNat 99 :=
  ⟨(id_fallback itemIdA 99).1 11 rfl (by decide),
   (id_fallback itemIdB 99).2.1 (Or.inl rfl) 7 rfl (by decide),
   (id_fallback itemIdC 99).2.2 (Or.inl rfl) (Or.inl rfl)⟩

/-- Counterexample to Claim C5 as stated: `itemEmptyNames` has
`collectionName` and `collectionViewUrl` present (as empty strings), yet
the normalized record takes the track-side fallbacks instead of those
present values. -/
theorem collectionName_present_cex :
    itemEmptyNames.collectionName = some "" ∧
    (normalizeItem itemEmptyNames 0).collectionName = "Track T" ∧
    itemEmptyNames.collectionViewUrl = some "" ∧
    (normalizeItem itemEmptyNames 0).collectionViewUrl = "http://t" := by
  refine ⟨rfl, by decide, rfl, by decide⟩

/-- Claim C5 as amended: the normalized `collectionName` equals the item's
`collectionName` when present and non-empty, else the item's `trackName`
when present and non-empty, else the empty string; likewise
`collectionViewUrl` falls back to `trackViewUrl`, then to the empty
string. -/
theorem collectionName_fallback (it : CatalogItem) (now : Nat) :
    (∀ s : String, it.collectionName = some s → s ≠ "" →
      (normalizeItem it now).collectionName = s) ∧
    ((it.collectionName = none ∨ it.collectionName = some "") →
      ∀ s : String, it.trackName = some s → s ≠ "" →
        (normalizeItem it now).collectionName = s) ∧
    ((it.collectionName = none ∨ it.collectionName = some "") →
      (it.trackName = none ∨ it.trackName = some "") →
      (normalizeItem it now).collectionName = "") ∧
    (∀ s : String, it.collectionViewUrl = some s → s ≠ "" →
      (normalizeItem it now).collectionViewUrl = s) ∧
    ((it.collectionViewUrl = none ∨ it.collectionViewUrl = some "") →
      ∀ s : String, it.trackViewUrl = some s → s ≠ "" →
        (normalizeItem it now).collectionViewUrl = s) ∧
    ((it.collectionViewUrl = none ∨ it.collectionViewUrl = some "") →
      (it.trackViewUrl = none ∨ it.trackViewUrl = some "") →
      (normalizeItem it now).collectionViewUrl = "") := by
  refine ⟨fun s hs hne => ?_, fun hc s hs hne => ?_, fun hc ht => ?_,
    fun s hs hne => ?_, fun hc s hs hne => ?_, fun hc ht => ?_⟩
  · simp [normalizeItem, jsOrStr, hs, hne]
  · rcases hc with hc | hc <;> simp [normalizeItem, jsOrStr, hc, hs, hne]
  · rcases hc with hc | hc <;> rcases ht with ht | ht <;>
      simp [normalizeItem, jsOrStr, hc, ht]
  · simp [normalizeItem, jsOrStr, hs, hne]
  · rcases hc with hc | hc <;> simp [normalizeItem, jsOrStr, hc, hs, hne]
  · rcases hc with hc | hc <;> rcases ht with ht | ht <;>
      simp [normalizeItem, jsOrStr, hc, ht]

/-- Witness for the amended C5: the primary name when non-empty, the track
fallback when the primary is absent, the empty string when both are
absent. -/
theorem collectionName_fallback_witness :
    (normalizeItem itemName1 5).collectionName = "Col" ∧
    (normalizeItem itemName2 5).collectionName = "Trk" ∧
    (normalizeItem itemName3 5).collectionName = "" ∧
    (normalizeItem itemName2 5).collectionViewUrl = "http://t" :=
  ⟨(collectionName_fallback itemName1 5).1 "Col" rfl (by decide),
   (collectionName_fallback itemName2 5).2.1 (Or.inl rfl) "Trk" rfl (by decide),
   (collectionName_fallback itemName3 5).2.2.1 (Or.inl rfl) (Or.inl rfl),
   (collectionName_fallback itemName2 5).2.2.2.2.1 (Or.inl rfl) "http://t" rfl
     (by decide)⟩

/-- Counterexample to Claim C6 as stated: `itemEmptyArt` has its
higher-resolution artwork URL present (as the empty string), yet the stored
record's image is the lower-resolution URL, not that present value. -/
theorem image_present_cex :
    itemEmptyArt.artworkUrl600 = some "" ∧
    (toStored (normalizeItem itemEmptyArt 0)).image = "http://img100" := by
  exact ⟨rfl, by decide⟩

/-- Claim C6 as amended: the stored record's image equals the
higher-resolution artwork URL when present and non-empty, else the
lower-resolution artwork URL when present, and the empty string when both
are absent (the schema default fills in the missing field). -/
theorem image_fallback (it : CatalogItem) (now : Nat) :
    (∀ s : String, it.artworkUrl600 = some s → s ≠ "" →
      (toStored (normalizeItem it now)).image = s) ∧
    ((it.artworkUrl600 = none ∨ it.artworkUrl600 = some "") →
      ∀ s : String, it.artworkUrl100 = some s →
        (toStored (normalizeItem it now)).image = s) ∧
    ((it.artworkUrl600 = none ∨ it.artworkUrl600 = some "") →
      it.artworkUrl100 = none →
      (toStored (normalizeItem it now)).image = "") := by
  refine ⟨fun s hs hne => ?_, fun hc s hs => ?_, fun hc hn => ?_⟩
  · simp [toStored, normalizeItem, jsOrOpt, hs, hne]
  · rcases hc with hc | hc <;> simp [toStored, normalizeItem, jsOrOpt, hc, hs]
  · rcases hc with hc | hc <;> simp [toStored, normalizeItem, jsOrOpt, hc, hn]

/-- Witness for the amended C6: the high-resolution URL when non-empty, the
low-resolution fallback, and the empty string when no artwork exists. -/
theorem image_fallback_witness :
    (toStored (normalizeItem itemArt1 5)).image = "http://img600" ∧
    (toStored (normalizeItem itemArt2 5)).image = "http://img100" ∧
    (toStored (normalizeItem itemArt3 5)).image = "" :=
  ⟨(image_fallback itemArt1 5).1 "http://img600" rfl (by decide),
   (image_fallback itemArt2 5).2.1 (Or.inl rfl) "http://img100" rfl,
   (image_fallback itemArt3 5).2.2 (Or.inl rfl) rfl⟩

lemma searchAndSave_fst (w : String) (env : Env) (store : List StoredRecord)
    (items : List CatalogItem)
    (hok : responseOk (env.fetch w).status = true)
    (hres : (env.fetch w).results = some items) :
    (searchAndSave w env store).1 =
      (processItems env.upsertFails env.now 0 store items).1 := by
  unfold searchAndSave
  simp [hok, hres]

/-- Counterexample to Claim C8 as stated: against the unchanged catalog
response `fetchNoIds`, whose single item lacks both external ids, the first
call (at time 100) returns a record with id 100 and the second call (at
time 200) one with id 200 — the ids are not identical across the two
calls, and the second call duplicates the record in the store (two records)
instead of overwriting. -/
theorem idempotence_cex :
    envFirst.fetch = envSecond.fetch ∧
    ((searchAndSave "q" envFirst []).2.map fun r => r.id) = [100] ∧
    ((searchAndSave "q" envSecond (searchAndSave "q" envFirst []).1).2.map
      fun r => r.id) = [200] ∧
    (searchAndSave "q" envSecond (searchAndSave "q" envFirst []).1).1.length
      = 2 :=
  ⟨rfl, by decide, by decide, by decide⟩

/-- Claim C8 as amended: calling `searchAndSave(term)` twice against an
unchanged catalog response whose items all carry a truthy natural id (so
the timestamp fallback is never used), with no store failures, yields
records identical in `id`, `kind`, `artistName`, `collectionName`,
`collectionViewUrl` and `image` across the two calls, with only
`searchDate` free to advance, and the second call overwrites rather than
duplicates (the store does not grow). -/
theorem searchAndSave_idempotent (w : String) (env1 env2 : Env)
    (store : List StoredRecord) (items : List CatalogItem)
    (hok : responseOk (env1.fetch w).status = true)
    (hres : (env1.fetch w).results = some items)
    (hfetch : env2.fetch w = env1.fetch w)
    (hnat : ∀ it ∈ items, naturalId it = true)
    (hf1 : env1.upsertFails = fun _ => false)
    (hf2 : env2.upsertFails = fun _ => false) :
    ((searchAndSave w env1 store).2.map fun r => r.id) =
      ((searchAndSave w env2 (searchAndSave w env1 store).1).2.map
        fun r => r.id) ∧
    ((searchAndSave w env1 store).2.map fun r => r.kind) =
      ((searchAndSave w env2 (searchAndSave w env1 store).1).2.map
        fun r => r.kind) ∧
    ((searchAndSave w env1 store).2.map fun r => r.artistName) =
      ((searchAndSave w env2 (searchAndSave w env1 store).1).2.map
        fun r => r.artistName) ∧
    ((searchAndSave w env1 store).2.map fun r => r.collectionName) =
      ((searchAndSave w env2 (searchAndSave w env1 store).1).2.map
        fun r => r.collectionName) ∧
    ((searchAndSave w env1 store).2.map fun r => r.collectionViewUrl) =
      ((searchAndSave w env2 (searchAndSave w env1 store).1).2.map
        fun r => r.collectionViewUrl) ∧
    ((searchAndSave w env1 store).2.map fun r => r.image) =
      ((searchAndSave w env2 (searchAndSave w env1 store).1).2.map
        fun r => r.image) ∧
    (searchAndSave w env2 (searchAndSave w env1 store).1).1.length =
      (searchAndSave w env1 store).1.length := by
  have hok2 : responseOk (env2.fetch w).status = true := by rw [hfetch]; exact hok
  have hres2 : (env2.fetch w).results = some items := by rw [hfetch]; exact hres
  have e1 := searchAndSave_snd_nofail w env1 store items hok hres hf1
  have e2 := searchAndSave_snd_nofail w env2 (searchAndSave w env1 store).1
    items hok2 hres2 hf2
  have hid : ∀ it ∈ items,
      (normalizeItem it env1.now).id = (normalizeItem it env2.now).id :=
    fun it hm => normalizeItem_id_natural it (hnat it hm) env1.now env2.now
  refine ⟨?_, ?_, ?_, ?_, ?_, ?_, ?_⟩
  · rw [e1, e2, List.map_map, List.map_map]
    exact List.map_congr_left fun it hm => hid it hm
  · rw [e1, e2, List.map_map, List.map_map]; rfl
  · rw [e1, e2, List.map_map, List.map_map]; rfl
  · rw [e1, e2, List.map_map, List.map_map]; rfl
  · rw [e1, e2, List.map_map, List.map_map]; rfl
  · rw [e1, e2, List.map_map, List.map_map]; rfl
  · have hnofail1 : ∀ j, env1.upsertFails j = false := fun j => by rw [hf1]
    have hnofail2 : ∀ j, env2.upsertFails j = false := fun j => by rw [hf2]
    rw [searchAndSave_fst w env2 (searchAndSave w env1 store).1 items hok2 hres2]
    apply processItems_fst_length env2.upsertFails env2.now hnofail2 items 0
    intro item hm
    rw [← hid item hm, searchAndSave_fst w env1 store items hok hres]
    exact processItems_fst_hasId_of_mem env1.upsertFails env1.now hnofail1
      items 0 store item hm

/-- Witness for the amended C8: two calls at times 100 and 200 against the
same naturally-keyed response return the same id list. -/
theorem searchAndSave_idempotent_witness :
    ((searchAndSave "q" envNat1 []).2.map fun r => r.id) =
      ((searchAndSave "q" envNat2 (searchAndSave "q" envNat1 []).1).2.map
        fun r => r.id) :=
  (searchAndSave_idempotent "q" envNat1 envNat2 [] [itemNat] (by decide) rfl
    rfl (by decide) rfl rfl).1

/-- Claim C9: any sequence of `searchAndSave` calls preserves the store
invariant of at most one record per `id`, and an upsert of an id already
present replaces the record (last write wins): filtering the upserted store
for that id yields exactly the new record. -/
theorem store_unique_last_write_wins :
    (∀ (calls : List (String × Env)) (store : List StoredRecord),
      distinctIds store → distinctIds (runCalls calls store)) ∧
    (∀ (store : List StoredRecord) (r : StoredRecord), distinctIds store →
      (upsert store r).filter (fun s => s.id == r.id) = [r]) := by
  constructor
  · intro calls
    induction calls with
    | nil => intro store h; exact h
    | cons c rest ih =>
      intro store h
      obtain ⟨cw, cenv⟩ := c
      exact ih _ (distinctIds_searchAndSave cw cenv store h)
  · intro store r h
    exact upsert_filter_eq r h

/-- Witness for C9: two calls reporting the same id 5 with different artist
names leave a store with distinct ids holding exactly one record for id 5,
with the latest artist name. -/
theorem store_unique_witness :
    distinctIds (runCalls [("a", envArtistA), ("b", envArtistB)] []) ∧
    (upsert (runCalls [("a", envArtistA)] [])
        (toStored (normalizeItem itemArtistB 200))).filter
      (fun s => s.id == (toStored (normalizeItem itemArtistB 200)).id) =
      [toStored (normalizeItem itemArtistB 200)] ∧
    (runCalls [("a", envArtistA), ("b", envArtistB)] []).map
      (fun s => (s.id, s.artistName)) = [(5, "ArtistB")] :=
  ⟨store_unique_last_write_wins.1 [("a", envArtistA), ("b", envArtistB)] []
     List.Pairwise.nil,
   store_unique_last_write_wins.2 (runCalls [("a", envArtistA)] [])
     (toStored (normalizeItem itemArtistB 200))
     (store_unique_last_write_wins.1 [("a", envArtistA)] [] List.Pairwise.nil),
   by decide⟩

end ITunesSearch
